import Mathlib

/-!
# Verification of the BuffettBrain scoring and valuation core

Shallow embedding of the analysis engine of the BuffettBrain repository
(`stock_analyzer.py`, `modules/fundamental_indicators.py`,
`modules/valuation_models.py`) over exact rational arithmetic, together
with proofs and refutations of the frozen specification claims.

Conventions used throughout the embedding:
* Python floats are modeled as `ℚ`; float `NaN` is modeled as `Option.none`
  (every ordered comparison against `none` is `false`, matching IEEE
  comparisons against NaN).
* A Python dict key that may be absent is an `Option` field; `d.get(k, v)`
  is `Option.getD`.
* Python's `x or y` on numbers (`y` substituted when `x` is falsy, i.e. `0`)
  is the helper `pyOr`.
* `round(x, 2)` is `round2`; `round` on `ℚ` is Mathlib's round-half-up,
  which agrees with Python's float `round` away from exact half-cent ties
  (no claim below depends on the value at a tie).
* Display strings built by f-string formatting are presentation only and are
  not modeled; every field that feeds a score, a flag or a branch is modeled.
-/

/-- Python `x or d` on numeric values: `d` when `x` is falsy (zero). -/
def pyOr (x d : ℚ) : ℚ := if x = 0 then d else x

/-- Python `round(x, 2)`: round to two decimal places. -/
def round2 (x : ℚ) : ℚ := (round (x * 100) : ℤ) / 100

/-! ## Recommendation (`stock_analyzer.py`, `_generate_recommendation`) -/

/-- Output record of `_generate_recommendation`. -/
structure Recommendation where
  status : String
  current_price : ℚ
  intrinsic_value : ℚ
  margin_of_safety : ℚ
  buy_price_min : ℚ
  buy_price_max : ℚ
  target_price : ℚ
  deriving DecidableEq

/-- Margin of safety as computed in `_generate_recommendation`:
`(1 - price/intrinsic_value) * 100` when both are positive, else `0`. -/
def margin_of_safety_calc (current_price intrinsic_value : ℚ) : ℚ :=
  if 0 < current_price ∧ 0 < intrinsic_value then
    (1 - current_price / intrinsic_value) * 100
  else 0

/-- `_generate_recommendation` (stock_analyzer.py lines 598-639): decision
table on `total_score` and margin of safety.  The currency symbol field of the
returned dict is presentation only and not modeled. -/
def generate_recommendation (current_price intrinsic_value : ℚ)
    (total_score : ℕ) : Recommendation :=
  let mos := margin_of_safety_calc current_price intrinsic_value
  if 12 ≤ total_score ∧ 20 ≤ mos then
    { status := "Buy", current_price := current_price,
      intrinsic_value := intrinsic_value, margin_of_safety := mos,
      buy_price_min := current_price * (95/100),
      buy_price_max := current_price * (105/100),
      target_price := current_price * (105/100) }
  else if 10 ≤ total_score ∧ 10 ≤ mos then
    { status := "Buy", current_price := current_price,
      intrinsic_value := intrinsic_value, margin_of_safety := mos,
      buy_price_min := current_price * (9/10),
      buy_price_max := current_price,
      target_price := current_price }
  else if 8 ≤ total_score ∨ 0 ≤ mos then
    let target := intrinsic_value * (8/10)
    { status := "Hold", current_price := current_price,
      intrinsic_value := intrinsic_value, margin_of_safety := mos,
      buy_price_min := target * (9/10), buy_price_max := target,
      target_price := target }
  else
    let target := intrinsic_value * (7/10)
    { status := "Avoid", current_price := current_price,
      intrinsic_value := intrinsic_value, margin_of_safety := mos,
      buy_price_min := target * (9/10), buy_price_max := target,
      target_price := target }

/-! ## Altman Z-score (`modules/fundamental_indicators.py`, `get_altman_z_score`) -/

/-- Line items read by `get_altman_z_score`; a `none` field models a row label
absent from the statement's index (`'X' in df.index` is false). -/
structure AltmanData where
  total_assets : Option ℚ
  current_assets : Option ℚ
  current_liabilities : Option ℚ
  retained_earnings : Option ℚ
  ebit : Option ℚ
  pretax_income : Option ℚ
  interest_expense : Option ℚ
  total_liabilities_nmi : Option ℚ
  total_liabilities : Option ℚ
  total_revenue : Option ℚ
  deriving DecidableEq

/-- Zone classification of a Z-score (fundamental_indicators.py lines 237-242),
with the exact strings produced by the source. -/
def altman_zone (z : ℚ) : String :=
  if z > 299/100 then "Safe (Green)"
  else if z > 181/100 then "Grey Zone (Caution)"
  else "Distress (Red)"

/-- EBIT with the source's fallback chain: the `EBIT` row if present, else
`Pretax Income + Interest Expense` if `Interest Expense` is present, else
`Pretax Income`.  `none` means the access raises `KeyError` (caught by the
surrounding `except`, which returns score 0 / zone `Unknown`). -/
def altman_ebit (d : AltmanData) : Option ℚ :=
  match d.ebit with
  | some e => some e
  | none =>
    match d.interest_expense with
    | some ie => d.pretax_income.map (· + ie)
    | none => d.pretax_income

/-- `get_altman_z_score`.  The `Option AltmanData` input is `none` when either
statement DataFrame is empty.  Returns (rounded score, zone string). -/
def get_altman_z_score (od : Option AltmanData) (market_cap : ℚ) : ℚ × String :=
  match od with
  | none => (0, "Unknown")
  | some d =>
    let total_assets := d.total_assets.getD 0
    if total_assets = 0 then (0, "Unknown")
    else
      match altman_ebit d with
      | none => (0, "Unknown")
      | some ebit =>
        let working_capital := d.current_assets.getD 0 - d.current_liabilities.getD 0
        let retained := d.retained_earnings.getD 0
        let total_liab :=
          match d.total_liabilities_nmi with
          | some v => v
          | none => d.total_liabilities.getD 0
        let sales := d.total_revenue.getD 0
        let A := working_capital / total_assets
        let B := retained / total_assets
        let C := ebit / total_assets
        let D := if total_liab = 0 then 0 else market_cap / total_liab
        let E := sales / total_assets
        let z := (12/10) * A + (14/10) * B + (33/10) * C + (6/10) * D + 1 * E
        (round2 z, altman_zone z)

/-! ## Piotroski F-score (`modules/fundamental_indicators.py`, `get_piotroski_f_score`) -/

/-- The `get_val` projections of the two newest annual columns (`t` current,
`t_1` previous) of the three statement DataFrames.  `get_val` collapses an
absent row or a NaN cell to `0`, so each field is a plain rational. -/
structure PiotroskiData where
  net_income : ℚ
  net_income_prev : ℚ
  total_assets : ℚ
  total_assets_prev : ℚ
  ocf : ℚ
  lt_debt : ℚ
  lt_debt_prev : ℚ
  curr_assets : ℚ
  curr_assets_prev : ℚ
  curr_liab : ℚ
  curr_liab_prev : ℚ
  ord_shares : ℚ
  ord_shares_prev : ℚ
  common_stock : ℚ
  common_stock_prev : ℚ
  revenue : ℚ
  revenue_prev : ℚ
  gross_profit : ℚ
  gross_profit_prev : ℚ
  deriving DecidableEq

/-- `total_assets = get_val(...) or 1` (source line 43). -/
def pTotalAssets (d : PiotroskiData) : ℚ := pyOr d.total_assets 1

/-- `total_assets_prev = get_val(...) or total_assets` (source line 44). -/
def pTotalAssetsPrev (d : PiotroskiData) : ℚ := pyOr d.total_assets_prev (pTotalAssets d)

/-- `avg_assets = (total_assets + total_assets_prev) / 2`. -/
def pAvgAssets (d : PiotroskiData) : ℚ := (pTotalAssets d + pTotalAssetsPrev d) / 2

/-- `roa = net_income / avg_assets if avg_assets else 0`. -/
def pROA (d : PiotroskiData) : ℚ :=
  if pAvgAssets d = 0 then 0 else d.net_income / pAvgAssets d

/-- `roa_prev = net_income_prev / total_assets_prev if total_assets_prev else 0`. -/
def pROAPrev (d : PiotroskiData) : ℚ :=
  if pTotalAssetsPrev d = 0 then 0 else d.net_income_prev / pTotalAssetsPrev d

/-- `leverage = lt_debt / avg_assets if avg_assets else 0`. -/
def pLeverage (d : PiotroskiData) : ℚ :=
  if pAvgAssets d = 0 then 0 else d.lt_debt / pAvgAssets d

/-- `leverage_prev = lt_debt_prev / total_assets_prev if total_assets_prev else 0`. -/
def pLeveragePrev (d : PiotroskiData) : ℚ :=
  if pTotalAssetsPrev d = 0 then 0 else d.lt_debt_prev / pTotalAssetsPrev d

/-- `curr_ratio = curr_assets / curr_liab if curr_liab else 0`. -/
def pCurrRatio (d : PiotroskiData) : ℚ :=
  if d.curr_liab = 0 then 0 else d.curr_assets / d.curr_liab

/-- Previous-year current ratio with the same guard. -/
def pCurrRatioPrev (d : PiotroskiData) : ℚ :=
  if d.curr_liab_prev = 0 then 0 else d.curr_assets_prev / d.curr_liab_prev

/-- `shares = get_val('Ordinary Shares Number') or get_val('Common Stock')`. -/
def pShares (d : PiotroskiData) : ℚ := pyOr d.ord_shares d.common_stock

/-- Previous-year share count with the same fallback. -/
def pSharesPrev (d : PiotroskiData) : ℚ := pyOr d.ord_shares_prev d.common_stock_prev

/-- `gm = gross_profit / revenue if revenue else 0`. -/
def pGrossMargin (d : PiotroskiData) : ℚ :=
  if d.revenue = 0 then 0 else d.gross_profit / d.revenue

/-- Previous-year gross margin with the same guard. -/
def pGrossMarginPrev (d : PiotroskiData) : ℚ :=
  if d.revenue_prev = 0 then 0 else d.gross_profit_prev / d.revenue_prev

/-- `asset_turnover = revenue / avg_assets if avg_assets else 0`. -/
def pAssetTurnover (d : PiotroskiData) : ℚ :=
  if pAvgAssets d = 0 then 0 else d.revenue / pAvgAssets d

/-- Previous-year asset turnover (`revenue_prev / total_assets_prev`). -/
def pAssetTurnoverPrev (d : PiotroskiData) : ℚ :=
  if pTotalAssetsPrev d = 0 then 0 else d.revenue_prev / pTotalAssetsPrev d

/-- Score contribution of the nine Piotroski tests, one point each, in source
order (fundamental_indicators.py lines 39-152). -/
def piotroski_score (d : PiotroskiData) : ℕ :=
  (if 0 < pROA d then 1 else 0) +
  (if 0 < d.ocf then 1 else 0) +
  (if pROAPrev d < pROA d then 1 else 0) +
  (if d.net_income < d.ocf then 1 else 0) +
  (if pLeverage d ≤ pLeveragePrev d then 1 else 0) +
  (if pCurrRatioPrev d < pCurrRatio d then 1 else 0) +
  (if pShares d ≤ pSharesPrev d then 1 else 0) +
  (if pGrossMarginPrev d < pGrossMargin d then 1 else 0) +
  (if pAssetTurnoverPrev d < pAssetTurnover d then 1 else 0)

/-- `get_piotroski_f_score`: a `none` input models an empty statement
DataFrame or fewer than two annual columns, which short-circuit to score 0. -/
def get_piotroski_f_score (od : Option PiotroskiData) : ℕ :=
  match od with
  | none => 0
  | some d => piotroski_score d

/-! ## Forward DCF (`stock_analyzer.py`, `_calculate_buffett_dcf_intrinsic_value`) -/

/-- Projected FCF after the first `n` iterations of the projection loop
(source lines 280-289): at 1-based year `y`, the growth rate declines
linearly, `year_growth = g0 - (g0 - tg) * (y / years)`. -/
def fcfAfter (g0 tg : ℚ) (years : ℕ) (fcf : ℚ) : ℕ → ℚ
  | 0 => fcf
  | n + 1 =>
    fcfAfter g0 tg years fcf n * (1 + (g0 - (g0 - tg) * (((n : ℚ) + 1) / (years : ℚ))))

/-- Sum of the discounted projected FCFs of years `1..n` (source lines
280-289); each year's FCF is discounted by `(1 + r) ^ year`. -/
def pvSumBuffett (g0 tg r : ℚ) (years : ℕ) (fcf : ℚ) : ℕ → ℚ
  | 0 => 0
  | n + 1 =>
    pvSumBuffett g0 tg r years fcf n + fcfAfter g0 tg years fcf (n + 1) / (1 + r) ^ (n + 1)

/-- Per-share DCF value before the sanity checks (source lines 262-303):
10-year projection, discount rate 10%, terminal growth 2.5%, initial growth
`min(earnings_growth / 100, 0.15)`, Gordon terminal value. -/
def dcf_per_share (free_cash_flow shares_outstanding earnings_growth : ℚ) : ℚ :=
  let discount_rate : ℚ := 1/10
  let terminal_growth_rate : ℚ := 1/40
  let projection_years : ℕ := 10
  let fcf_growth_rate := min (earnings_growth / 100) (15/100)
  let total_present_value :=
    pvSumBuffett fcf_growth_rate terminal_growth_rate discount_rate projection_years
      free_cash_flow projection_years
  let projected_fcf :=
    fcfAfter fcf_growth_rate terminal_growth_rate projection_years free_cash_flow
      projection_years
  let terminal_fcf := projected_fcf * (1 + terminal_growth_rate)
  let terminal_value := terminal_fcf / (discount_rate - terminal_growth_rate)
  let terminal_pv := terminal_value / (1 + discount_rate) ^ projection_years
  (total_present_value + terminal_pv) / shares_outstanding

/-- FCF estimation chain (source lines 244-256): when reported FCF is
non-positive fall back to net income × 0.8, then EPS × shares × 0.8, then a
5% FCF yield on price; otherwise the reported FCF is kept unchanged. -/
def effective_fcf (current_price free_cash_flow net_income eps shares_outstanding : ℚ) : ℚ :=
  if free_cash_flow ≤ 0 then
    if 0 < net_income then net_income * (8/10)
    else if 0 < eps ∧ 0 < shares_outstanding then eps * shares_outstanding * (8/10)
    else if 0 < current_price then
      (if 0 < shares_outstanding then current_price * shares_outstanding * (5/100)
       else current_price * (5/100))
    else free_cash_flow
  else free_cash_flow

/-- `_estimate_intrinsic_value_simple` (source lines 323-332). -/
def estimate_intrinsic_value_simple (current_price eps : ℚ) : ℚ :=
  if 0 < eps then eps * 12 else current_price * (8/10)

/-- `_calculate_buffett_dcf_intrinsic_value` on the scalar fields it reads
(each the result of `get(..., 0) or 0`, except `earnings_growth` whose
`get(..., 10) or 10` default is applied by the caller-level embedding).
The `try/except` of the source is not modeled: every division in the body
has a guarded or structurally nonzero denominator and float arithmetic does
not raise, so the except branch is unreachable. -/
def calculate_buffett_dcf_intrinsic_value
    (current_price free_cash_flow shares_outstanding net_income eps earnings_growth : ℚ) : ℚ :=
  let fcf := effective_fcf current_price free_cash_flow net_income eps shares_outstanding
  if fcf ≤ 0 ∨ shares_outstanding ≤ 0 then
    estimate_intrinsic_value_simple current_price eps
  else
    let v := dcf_per_share fcf shares_outstanding earnings_growth
    if v ≤ 0 then current_price * (8/10)
    else
      let price_ratio := if 0 < current_price then v / current_price else 1
      if 5 < price_ratio then round2 (current_price * 5)
      else if price_ratio < 1/5 then round2 (current_price * (1/5))
      else round2 v

/-! ## Reverse DCF (`modules/valuation_models.py`) -/

/-- Constant-growth projected FCF after `n` years (`current_fcf` of the
projection loop in `_calculate_dcf_value`, lines 37-43). -/
def projFcf (fcf growth_rate : ℚ) : ℕ → ℚ
  | 0 => fcf
  | n + 1 => projFcf fcf growth_rate n * (1 + growth_rate)

/-- Discounted sum of the projection phase of `_calculate_dcf_value`
(lines 37-43). -/
def projPvSum (fcf growth_rate discount_rate : ℚ) : ℕ → ℚ
  | 0 => 0
  | n + 1 =>
    projPvSum fcf growth_rate discount_rate n +
      projFcf fcf growth_rate (n + 1) / (1 + discount_rate) ^ (n + 1)

/-- `_calculate_dcf_value` (valuation_models.py lines 33-48): constant-growth
DCF of a per-share FCF with a Gordon terminal value. -/
def calculate_dcf_value (fcf growth_rate discount_rate terminal_growth_rate : ℚ)
    (years : ℕ) : ℚ :=
  let current_fcf := projFcf fcf growth_rate years
  let terminal_fcf := current_fcf * (1 + terminal_growth_rate)
  let terminal_val := terminal_fcf / (discount_rate - terminal_growth_rate)
  projPvSum fcf growth_rate discount_rate years + terminal_val / (1 + discount_rate) ^ years

/-- Bisection loop of `calculate_reverse_dcf` (valuation_models.py lines
15-31).  `fuel` is the number of remaining iterations of
`for _ in range(100)`; tolerance is `0.01`.  When the loop finishes without
hitting the tolerance, Python returns the `mid` computed in the final
iteration, so the iteration with `fuel = 0` remaining afterwards returns its
`mid` directly (the final bound update is dead).  The fuel-0 case of the
match is unreachable from the entry point, which starts at fuel 100. -/
def reverseDcfLoop (fps discount_rate terminal_growth_rate : ℚ) (years : ℕ)
    (current_price : ℚ) : ℕ → ℚ → ℚ → ℚ
  | 0, low, high => (low + high) / 2 * 100
  | fuel + 1, low, high =>
    let mid := (low + high) / 2
    let implied_value := calculate_dcf_value fps mid discount_rate terminal_growth_rate years
    if |implied_value - current_price| < 1/100 then mid * 100
    else if fuel = 0 then mid * 100
    else if implied_value < current_price then
      reverseDcfLoop fps discount_rate terminal_growth_rate years current_price fuel mid high
    else
      reverseDcfLoop fps discount_rate terminal_growth_rate years current_price fuel low mid

/-- `calculate_reverse_dcf` (valuation_models.py lines 3-31): bisection for
the implied growth rate over `g ∈ [-0.5, 1.0]`, at most 100 iterations,
returning the growth as a percentage; `none` models the Python `None` return
for non-positive price, FCF or share count.  The source's default arguments
(`discount_rate=0.10`, `terminal_growth_rate=0.025`, `projection_years=10`)
are passed explicitly by the theorems below. -/
def calculate_reverse_dcf (current_price free_cash_flow shares_outstanding
    discount_rate terminal_growth_rate : ℚ) (projection_years : ℕ) : Option ℚ :=
  if current_price ≤ 0 ∨ free_cash_flow ≤ 0 ∨ shares_outstanding ≤ 0 then none
  else
    let fcf_per_share := free_cash_flow / shares_outstanding
    some (reverseDcfLoop fcf_per_share discount_rate terminal_growth_rate projection_years
      current_price 100 (-(1/2)) 1)

/-! ## ROIC (`modules/fundamental_indicators.py`, `get_roic`) -/

/-- Line items read by `get_roic` for the latest year, as `get_val` results
(absent row or NaN collapses to 0). -/
structure RoicData where
  net_income : ℚ
  total_stockholder_equity : ℚ
  stockholders_equity : ℚ
  long_term_debt : ℚ
  total_debt : ℚ
  deriving DecidableEq

/-- `get_roic` (fundamental_indicators.py lines 159-190); `none` models an
empty statement (no columns), which returns 0. -/
def get_roic (od : Option RoicData) : ℚ :=
  match od with
  | none => 0
  | some d =>
    let equity := pyOr d.total_stockholder_equity d.stockholders_equity
    let debt := pyOr d.long_term_debt d.total_debt
    let invested_capital := equity + debt
    if invested_capital = 0 then 0 else d.net_income / invested_capital * 100

/-! ## Stock snapshot (`stock_analyzer.py`) -/

/-- The snapshot dict consumed by `analyze_stock`.  Fields up to
`net_income_history` are raw inputs from the data fetcher (a `none` is an
absent key); the three `statements_*` fields are the projections of the raw
statement DataFrames consumed by the fundamental indicators; the remaining
fields are the keys that `stock_data.update(derived_metrics)` writes into
the same dict (absent until an analysis has run).  The raw numeric
`free_cash_flow` and the derived boolean positivity flag share one dict key,
hence the sum type.  The `currency` and `currency_symbol` keys only feed
display strings and are not modeled. -/
structure StockData where
  current_price : Option ℚ
  book_value : Option ℚ
  pe_ratio : Option ℚ
  pb_ratio : Option ℚ
  eps : Option ℚ
  shares_outstanding : Option ℚ
  market_cap : Option ℚ
  dividend_yield : Option ℚ
  earnings_growth : Option ℚ
  revenue_growth : Option ℚ
  revenue_growth_years : Option ℚ
  earnings_growth_years : Option ℚ
  promoter_holding : Option ℚ
  total_debt : Option ℚ
  total_stockholder_equity : Option ℚ
  total_current_assets : Option ℚ
  total_current_liabilities : Option ℚ
  net_income : Option ℚ
  operating_income : Option ℚ
  total_revenue : Option ℚ
  free_cash_flow : Option (ℚ ⊕ Bool)
  net_income_history : List ℚ
  statements_piotroski : Option PiotroskiData
  statements_roic : Option RoicData
  statements_altman : Option AltmanData
  debt_to_equity : Option (Option ℚ)
  current_ratio : Option ℚ
  roe : Option ℚ
  operating_margin : Option ℚ
  roce : Option ℚ
  peg_ratio : Option (Option ℚ)
  book_value_check : Option Bool
  intrinsic_value : Option ℚ
  growth_alignment : Option ℚ
  earnings_consistency : Option Unit
  dividend_history : Option Bool
  promoter_pledging : Option ℚ
  deriving DecidableEq

/-- The value of the `free_cash_flow` key as a number
(`get('free_cash_flow', 0) or 0` with Python truthiness: an absent key or a
stored `False`/`0` gives 0, a stored `True` behaves as 1 in arithmetic). -/
def fcfNum : Option (ℚ ⊕ Bool) → ℚ
  | some (Sum.inl q) => q
  | some (Sum.inr b) => if b then 1 else 0
  | none => 0

/-! ### Derived metrics (`_calculate_derived_metrics`, lines 158-221).
In the inner-`none` encoding of `debt_to_equity` and `peg_ratio`, `none`
models Python's `float('inf')`, against which every `<`/`≤` comparison in the
criteria is false. -/

/-- `debt_to_equity = total_debt / total_equity if total_equity > 0 else inf`. -/
def derived_debt_to_equity (s : StockData) : Option ℚ :=
  let td := s.total_debt.getD 0
  let te := pyOr (s.total_stockholder_equity.getD 1) 1
  if 0 < te then some (td / te) else none

/-- `current_ratio = current_assets / current_liabilities` (0 on non-positive
denominator). -/
def derived_current_ratio (s : StockData) : ℚ :=
  let ca := s.total_current_assets.getD 0
  let cl := pyOr (s.total_current_liabilities.getD 1) 1
  if 0 < cl then ca / cl else 0

/-- `roe = net_income / total_equity * 100` (0 on non-positive equity). -/
def derived_roe (s : StockData) : ℚ :=
  let ni := s.net_income.getD 0
  let te := pyOr (s.total_stockholder_equity.getD 1) 1
  if 0 < te then ni / te * 100 else 0

/-- `operating_margin = operating_income / total_revenue * 100`. -/
def derived_operating_margin (s : StockData) : ℚ :=
  let oi := s.operating_income.getD 0
  let tr := pyOr (s.total_revenue.getD 1) 1
  if 0 < tr then oi / tr * 100 else 0

/-- `roce = operating_income / (total_equity + total_debt) * 100`. -/
def derived_roce (s : StockData) : ℚ :=
  let oi := s.operating_income.getD 0
  let td := s.total_debt.getD 0
  let te := pyOr (s.total_stockholder_equity.getD 1) 1
  let total_capital := te + td
  if 0 < total_capital then oi / total_capital * 100 else 0

/-- `peg_ratio = pe_ratio / earnings_growth if earnings_growth > 0 else inf`. -/
def derived_peg_ratio (s : StockData) : Option ℚ :=
  let pe := s.pe_ratio.getD 0
  let eg := pyOr (s.earnings_growth.getD 1) 1
  if 0 < eg then some (pe / eg) else none

/-- `book_value_check = current_price < book_value`. -/
def derived_book_value_check (s : StockData) : Bool :=
  decide (s.current_price.getD 0 < s.book_value.getD 0)

/-- `intrinsic_value` via the Buffett DCF on the snapshot's scalar fields;
`earnings_growth` uses the source's `get('earnings_growth', 10) or 10`. -/
def derived_intrinsic_value (s : StockData) : ℚ :=
  calculate_buffett_dcf_intrinsic_value (s.current_price.getD 0)
    (fcfNum s.free_cash_flow) (s.shares_outstanding.getD 0)
    (s.net_income.getD 0) (s.eps.getD 0) (pyOr (s.earnings_growth.getD 10) 10)

/-- `growth_alignment = min/max of the two growth rates when both positive,
else 0`. -/
def derived_growth_alignment (s : StockData) : ℚ :=
  let rg := s.revenue_growth.getD 0
  let pg := s.earnings_growth.getD 0
  if 0 < rg ∧ 0 < pg then min rg pg / max rg pg else 0

/-- `free_cash_flow` flag: positivity of the raw FCF value. -/
def derived_free_cash_flow_flag (s : StockData) : Bool :=
  decide (0 < fcfNum s.free_cash_flow)

/-- `dividend_history = dividend_yield > 0`. -/
def derived_dividend_history (s : StockData) : Bool :=
  decide (0 < s.dividend_yield.getD 0)

/-- `stock_data.update(derived_metrics)` (analyze_stock line 118): merge the
derived metrics into the snapshot dict, overwriting `free_cash_flow` with
the boolean flag, re-writing `promoter_holding` with its defaulted value,
and setting `earnings_consistency` to Python `None`. -/
def update_with_derived (s : StockData) : StockData :=
  { s with
    debt_to_equity := some (derived_debt_to_equity s)
    current_ratio := some (derived_current_ratio s)
    roe := some (derived_roe s)
    operating_margin := some (derived_operating_margin s)
    roce := some (derived_roce s)
    peg_ratio := some (derived_peg_ratio s)
    book_value_check := some (derived_book_value_check s)
    intrinsic_value := some (derived_intrinsic_value s)
    growth_alignment := some (derived_growth_alignment s)
    earnings_consistency := some ()
    free_cash_flow := some (Sum.inr (derived_free_cash_flow_flag s))
    dividend_history := some (derived_dividend_history s)
    promoter_holding := some (s.promoter_holding.getD 0)
    promoter_pledging := some 0 }

/-! ## Criteria scorer (`_initialize_buffett_criteria`, `_evaluate_criterion`) -/

/-- Static configuration of one criterion; each dict entry of the source
carries only the threshold keys its evaluation branch reads, so every
threshold field is optional. -/
structure CriterionSpec where
  name : String
  key : String
  criteria : String
  good_threshold : Option ℚ
  bad_threshold : Option ℚ
  excellent_threshold : Option ℚ
  avoid_threshold : Option ℚ
  fair_min : Option ℚ
  fair_max : Option ℚ
  okay_max : Option ℚ
  discount_threshold : Option ℚ
  alignment_threshold : Option ℚ
  volatility_threshold : Option ℚ
  growth_threshold : Option ℚ
  years_threshold : Option ℚ
  comparison : Option String
  deriving DecidableEq

/-- A criterion entry with no thresholds, used as the base of the table
entries below. -/
def baseCriterion : CriterionSpec :=
  ⟨"", "", "", none, none, none, none, none, none, none, none, none, none,
    none, none, none⟩

/-- `_initialize_buffett_criteria` (lines 13-111): the fixed table of 15
criteria (the docstring of the source says "16-point"; the list has 15
entries). -/
def buffett_criteria : List CriterionSpec :=
  [{ baseCriterion with
      name := "Return on Equity (ROE)"
      key := "roe"
      criteria := "> 15% = Good, < 10% = Avoid"
      good_threshold := some 15
      bad_threshold := some 10 },
   { baseCriterion with
      name := "Debt-to-Equity Ratio"
      key := "debt_to_equity"
      criteria := "< 0.5 = Excellent, 0.5-1 = Okay, > 1 = Avoid"
      excellent_threshold := some (1/2)
      avoid_threshold := some 1 },
   { baseCriterion with
      name := "Current Ratio"
      key := "current_ratio"
      criteria := "> 1.5 = Healthy, < 1 = Risky"
      good_threshold := some (3/2)
      bad_threshold := some 1 },
   { baseCriterion with
      name := "Book Value Per Share"
      key := "book_value_check"
      criteria := "Stock Price < Book Value"
      comparison := some "price_vs_book" },
   { baseCriterion with
      name := "Price-to-Earnings (P/E) Ratio"
      key := "pe_ratio"
      criteria := "10-15 = Fair, 15-25 = Okay, > 25 = Expensive"
      fair_min := some 10
      fair_max := some 15
      okay_max := some 25 },
   { baseCriterion with
      name := "Price-to-Book (P/B) Ratio"
      key := "pb_ratio"
      criteria := "< 1.5 = Undervalued"
      good_threshold := some (3/2) },
   { baseCriterion with
      name := "Intrinsic Value vs Market Price"
      key := "intrinsic_value_check"
      criteria := "MoS >= 20% (IV via DCF, MoS = Margin of Safety)"
      discount_threshold := some 20 },
   { baseCriterion with
      name := "Operating Profit Margin (OPM)"
      key := "operating_margin"
      criteria := "> 15% and stable"
      good_threshold := some 15 },
   { baseCriterion with
      name := "Revenue vs Profit Growth"
      key := "growth_alignment"
      criteria := "Both positive (5-year CAGR or YoY)"
      alignment_threshold := some (4/5) },
   { baseCriterion with
      name := "Return on Capital Employed (ROCE)"
      key := "roce"
      criteria := "> 15%"
      good_threshold := some 15 },
   { baseCriterion with
      name := "PEG Ratio"
      key := "peg_ratio"
      criteria := "< 1.0"
      good_threshold := some 1 },
   { baseCriterion with
      name := "Earnings Growth"
      key := "earnings_growth"
      criteria := "> 8-10% CAGR"
      good_threshold := some 8 },
   { baseCriterion with
      name := "Consistent Earnings"
      key := "earnings_consistency"
      criteria := "Net Income stable over 5-10 years"
      volatility_threshold := some (3/10) },
   { baseCriterion with
      name := "Free Cash Flow"
      key := "free_cash_flow"
      criteria := "Positive & growing over 5 years"
      growth_threshold := some 0 },
   { baseCriterion with
      name := "Dividend History"
      key := "dividend_history"
      criteria := "Dividend paid last 5 years (bonus)"
      years_threshold := some 3 }]

/-- Result of evaluating one criterion (`_evaluate_criterion` return dict);
the formatted display `value` string is presentation only and not modeled. -/
structure CriterionResult where
  name : String
  status : String
  passed : Bool
  criteria : String
  deriving DecidableEq

/-- `_evaluate_criterion` (lines 334-596), branch by branch.  A `none` field
stands for an absent key, whose value reads as the string "N/A" and fails
every `isinstance` numeric check, leaving `passed = False`, `status =
"poor"`.  The second `elif key == 'earnings_consistency'` branch of the
source (lines 565-575) is unreachable (the first branch at line 492 shadows
it) and is not modeled.  Threshold reads `criterion['...']` are modeled with
`getD 0`; on the fixed table each branch only reads thresholds its entry
carries. -/
def evaluate_criterion (s : StockData) (c : CriterionSpec) : CriterionResult :=
  match c.key with
  | "roe" =>
    match s.roe with
    | some v =>
      if c.good_threshold.getD 0 < v then ⟨c.name, "good", true, c.criteria⟩
      else if c.bad_threshold.getD 0 < v then ⟨c.name, "caution", false, c.criteria⟩
      else ⟨c.name, "poor", false, c.criteria⟩
    | none => ⟨c.name, "poor", false, c.criteria⟩
  | "debt_to_equity" =>
    match s.debt_to_equity with
    | some (some v) =>
      if v < c.excellent_threshold.getD 0 then ⟨c.name, "good", true, c.criteria⟩
      else if v ≤ c.avoid_threshold.getD 0 then ⟨c.name, "caution", false, c.criteria⟩
      else ⟨c.name, "poor", false, c.criteria⟩
    | some none => ⟨c.name, "poor", false, c.criteria⟩
    | none => ⟨c.name, "poor", false, c.criteria⟩
  | "current_ratio" =>
    match s.current_ratio with
    | some v =>
      if c.good_threshold.getD 0 < v then ⟨c.name, "good", true, c.criteria⟩
      else if c.bad_threshold.getD 0 ≤ v then ⟨c.name, "caution", false, c.criteria⟩
      else ⟨c.name, "poor", false, c.criteria⟩
    | none => ⟨c.name, "poor", false, c.criteria⟩
  | "book_value_check" =>
    let bv := s.book_value.getD 0
    let cp := s.current_price.getD 0
    if 0 < bv then
      if cp < bv then ⟨c.name, "good", true, c.criteria⟩
      else ⟨c.name, "poor", false, c.criteria⟩
    else ⟨c.name, "poor", false, c.criteria⟩
  | "pe_ratio" =>
    let pe := s.pe_ratio.getD 0
    if 0 < pe then
      if c.fair_min.getD 0 ≤ pe ∧ pe ≤ c.fair_max.getD 0 then
        ⟨c.name, "good", true, c.criteria⟩
      else if pe ≤ c.okay_max.getD 0 then ⟨c.name, "caution", false, c.criteria⟩
      else ⟨c.name, "poor", false, c.criteria⟩
    else ⟨c.name, "poor", false, c.criteria⟩
  | "pb_ratio" =>
    let pb := s.pb_ratio.getD 0
    if 0 < pb then
      if pb < c.good_threshold.getD 0 then ⟨c.name, "good", true, c.criteria⟩
      else if pb < 2 then ⟨c.name, "caution", false, c.criteria⟩
      else ⟨c.name, "poor", false, c.criteria⟩
    else ⟨c.name, "poor", false, c.criteria⟩
  | "intrinsic_value_check" =>
    let cp := s.current_price.getD 0
    let iv := s.intrinsic_value.getD 0
    if 0 < cp ∧ 0 < iv then
      let mos := (1 - cp / iv) * 100
      if c.discount_threshold.getD 0 ≤ mos then ⟨c.name, "good", true, c.criteria⟩
      else if 0 < mos then ⟨c.name, "caution", false, c.criteria⟩
      else ⟨c.name, "poor", false, c.criteria⟩
    else ⟨c.name, "poor", false, c.criteria⟩
  | "operating_margin" =>
    match s.operating_margin with
    | some v =>
      if c.good_threshold.getD 0 < v then ⟨c.name, "good", true, c.criteria⟩
      else if c.good_threshold.getD 0 * (7/10) < v then
        ⟨c.name, "caution", false, c.criteria⟩
      else ⟨c.name, "poor", false, c.criteria⟩
    | none => ⟨c.name, "poor", false, c.criteria⟩
  | "roce" =>
    match s.roce with
    | some v =>
      if c.good_threshold.getD 0 < v then ⟨c.name, "good", true, c.criteria⟩
      else if c.good_threshold.getD 0 * (7/10) < v then
        ⟨c.name, "caution", false, c.criteria⟩
      else ⟨c.name, "poor", false, c.criteria⟩
    | none => ⟨c.name, "poor", false, c.criteria⟩
  | "growth_alignment" =>
    let rg := s.revenue_growth.getD 0
    let pg := s.earnings_growth.getD 0
    let years := pyOr (s.revenue_growth_years.getD 0) (s.earnings_growth_years.getD 0)
    if 0 < rg ∧ 0 < pg then
      if min rg pg / max rg pg < 1/2 then ⟨c.name, "caution", true, c.criteria⟩
      else ⟨c.name, "good", true, c.criteria⟩
    else
      if 0 < years ∨ rg ≠ 0 ∨ pg ≠ 0 then ⟨c.name, "poor", false, c.criteria⟩
      else ⟨c.name, "caution", false, c.criteria⟩
  | "earnings_consistency" =>
    if 2 ≤ s.net_income_history.length then
      if s.net_income_history.all (fun v => decide (0 < v)) then
        ⟨c.name, "good", true, c.criteria⟩
      else ⟨c.name, "poor", false, c.criteria⟩
    else ⟨c.name, "poor", false, c.criteria⟩
  | "peg_ratio" =>
    match s.peg_ratio with
    | some (some v) =>
      if v < c.good_threshold.getD 0 then ⟨c.name, "good", true, c.criteria⟩
      else if v < 3/2 then ⟨c.name, "caution", false, c.criteria⟩
      else ⟨c.name, "poor", false, c.criteria⟩
    | some none => ⟨c.name, "poor", false, c.criteria⟩
    | none => ⟨c.name, "poor", false, c.criteria⟩
  | "earnings_growth" =>
    let eg := s.earnings_growth.getD 0
    if c.good_threshold.getD 0 < eg then ⟨c.name, "good", true, c.criteria⟩
    else if 0 < eg then ⟨c.name, "caution", false, c.criteria⟩
    else ⟨c.name, "poor", false, c.criteria⟩
  | "free_cash_flow" =>
    match s.free_cash_flow with
    | some (Sum.inr b) =>
      if b then ⟨c.name, "good", true, c.criteria⟩
      else ⟨c.name, "poor", false, c.criteria⟩
    | _ => ⟨c.name, "poor", false, c.criteria⟩
  | "dividend_history" =>
    match s.dividend_history with
    | some b =>
      if b then ⟨c.name, "good", true, c.criteria⟩
      else ⟨c.name, "caution", false, c.criteria⟩
    | none => ⟨c.name, "poor", false, c.criteria⟩
  | _ => ⟨c.name, "poor", false, c.criteria⟩

/-! ## Full analysis (`analyze_stock`, lines 113-156) -/

/-- The advanced-metrics block of the analysis result. -/
structure AdvancedMetrics where
  piotroski : ℕ
  roic : ℚ
  altman_z : ℚ × String
  deriving DecidableEq

/-- The analysis result dict (the wall-clock `analysis_timestamp` is not
modeled; it is the one field the spec itself excludes from determinism). -/
structure AnalysisResult where
  total_score : ℕ
  metrics : List CriterionResult
  recommendation : Recommendation
  advanced : AdvancedMetrics
  deriving DecidableEq

/-- Accumulator step of the scoring loop (lines 124-128): append the
criterion result and add one point when it passed. -/
def scoreStep (s : StockData) (acc : List CriterionResult × ℕ) (c : CriterionSpec) :
    List CriterionResult × ℕ :=
  let r := evaluate_criterion s c
  (acc.1 ++ [r], if r.passed then acc.2 + 1 else acc.2)

/-- `analyze_stock`: mutates the input dict by merging the derived metrics
(first component of the returned pair is the post-call state of the caller's
dict), scores the 15 criteria, and assembles the result. -/
def analyze_stock (s : StockData) : StockData × AnalysisResult :=
  let s1 := update_with_derived s
  let eval := buffett_criteria.foldl (scoreStep s1) ([], 0)
  let cp := s1.current_price.getD 0
  let recommendation := generate_recommendation cp (s1.intrinsic_value.getD cp) eval.2
  (s1,
   { total_score := eval.2, metrics := eval.1, recommendation := recommendation,
     advanced :=
      { piotroski := get_piotroski_f_score s1.statements_piotroski,
        roic := get_roic s1.statements_roic,
        altman_z := get_altman_z_score s1.statements_altman (s1.market_cap.getD 0) } })

/-- A minimal concrete snapshot: only `current_price` is present. -/
def sampleSnapshot : StockData :=
  { current_price := some 100, book_value := none, pe_ratio := none,
    pb_ratio := none, eps := none, shares_outstanding := none,
    market_cap := none, dividend_yield := none, earnings_growth := none,
    revenue_growth := none, revenue_growth_years := none,
    earnings_growth_years := none, promoter_holding := none,
    total_debt := none, total_stockholder_equity := none,
    total_current_assets := none, total_current_liabilities := none,
    net_income := none, operating_income := none, total_revenue := none,
    free_cash_flow := none, net_income_history := [],
    statements_piotroski := none, statements_roic := none,
    statements_altman := none, debt_to_equity := none, current_ratio := none,
    roe := none, operating_margin := none, roce := none, peg_ratio := none,
    book_value_check := none, intrinsic_value := none,
    growth_alignment := none, earnings_consistency := none,
    dividend_history := none, promoter_pledging := none }

/-! ## Technical indicators (`stock_analyzer.py`, `get_technical_indicators`) -/

/-- One row of the price history (`Open`/`High`/`Low`/`Close`; the volume
column is never read by the indicator code). -/
structure Bar where
  open_price : ℚ
  high : ℚ
  low : ℚ
  close : ℚ
  deriving DecidableEq

/-- pandas `Series.rolling(w).mean()` at index `i`: the mean of the last `w`
values when the window is full, NaN (`none`) otherwise. -/
def rollingMeanAt (xs : List ℚ) (w i : ℕ) : Option ℚ :=
  if w ≤ i + 1 ∧ i < xs.length then some (((xs.drop (i + 1 - w)).take w).sum / w)
  else none

/-- pandas `Series.rolling(w).min()` at index `i`. -/
def rollingMinAt (xs : List ℚ) (w i : ℕ) : Option ℚ :=
  if w ≤ i + 1 ∧ i < xs.length then
    match (xs.drop (i + 1 - w)).take w with
    | [] => none
    | h :: t => some (t.foldl min h)
  else none

/-- pandas `Series.rolling(w).max()` at index `i`. -/
def rollingMaxAt (xs : List ℚ) (w i : ℕ) : Option ℚ :=
  if w ≤ i + 1 ∧ i < xs.length then
    match (xs.drop (i + 1 - w)).take w with
    | [] => none
    | h :: t => some (t.foldl max h)
  else none

/-- pandas sample standard deviation (`ddof = 1`) of the rolling window,
parametric in the square-root routine: the float `sqrt` has no exact
rational counterpart, so the embedding takes it as a parameter; every claim
proved below holds for an arbitrary `sqrtFn`. -/
def rollingStdAt (sqrtFn : ℚ → ℚ) (xs : List ℚ) (w i : ℕ) : Option ℚ :=
  if w ≤ i + 1 ∧ i < xs.length ∧ 2 ≤ w then
    let win := (xs.drop (i + 1 - w)).take w
    let m := win.sum / w
    some (sqrtFn ((win.map (fun x => (x - m) ^ 2)).sum / (w - 1 : ℕ)))
  else none

/-- Tail of `Series.ewm(span, adjust=False).mean()`:
`e_i = (1 - alpha) * e_(i-1) + alpha * x_i`. -/
def ewmaAcc (alpha prev : ℚ) : List ℚ → List ℚ
  | [] => []
  | x :: t =>
    let e := (1 - alpha) * prev + alpha * x
    e :: ewmaAcc alpha e t

/-- `Series.ewm(span, adjust=False).mean()`, seeded with the first value;
`alpha = 2 / (span + 1)`. -/
def ewma (alpha : ℚ) : List ℚ → List ℚ
  | [] => []
  | x :: t => x :: ewmaAcc alpha x t

/-- `Series.diff()`: NaN at index 0, day-over-day difference afterwards. -/
def diffList : List ℚ → List (Option ℚ)
  | [] => []
  | h :: t => none :: List.zipWith (fun a b => some (a - b)) t (h :: t)

/-- `delta.where(delta > 0, 0)`: the positive deltas, zero elsewhere (a NaN
delta compares false and becomes 0). -/
def gainsOf (deltas : List (Option ℚ)) : List ℚ :=
  deltas.map fun d =>
    match d with
    | some x => if 0 < x then x else 0
    | none => 0

/-- `(-delta.where(delta < 0, 0))`: the negated negative deltas. -/
def lossesOf (deltas : List (Option ℚ)) : List ℚ :=
  deltas.map fun d =>
    match d with
    | some x => if x < 0 then -x else 0
    | none => 0

/-- `_calculate_rsi` at index `i` with float division semantics: when the
rolling loss mean is 0, `gain/0` is `+inf` for positive gain (RSI 100) and
`0/0` is NaN; the gain mean is nonnegative by construction. -/
def rsiAt (closes : List ℚ) (i : ℕ) : Option ℚ :=
  let deltas := diffList closes
  match rollingMeanAt (gainsOf deltas) 14 i, rollingMeanAt (lossesOf deltas) 14 i with
  | some g, some l =>
    if l = 0 then (if g = 0 then none else some 100)
    else some (100 - 100 / (1 + g / l))
  | _, _ => none

/-- `_calculate_stochastic` %K at index `i` (lines 801-810): the division
`(close - low_min) / (high_max - low_min)` is written without a guard; on a
flat 14-bar window the denominator is 0 and (the numerator being 0 as well
for any well-formed window) the float division yields NaN, modeled `none`. -/
def stochKAt (bars : List Bar) (i : ℕ) : Option ℚ :=
  match rollingMinAt (bars.map (·.low)) 14 i, rollingMaxAt (bars.map (·.high)) 14 i with
  | some lmin, some hmax =>
    if hmax - lmin = 0 then none
    else some (100 * (((bars.map (·.close)).getD i 0 - lmin) / (hmax - lmin)))
  | _, _ => none

/-- `Stoch_D`: 3-period SMA of %K; any NaN in the window propagates. -/
def stochDAt (bars : List Bar) (i : ℕ) : Option ℚ :=
  if 3 ≤ i + 1 ∧ i < bars.length then
    match stochKAt bars (i - 2), stochKAt bars (i - 1), stochKAt bars i with
    | some a, some b, some c => some ((a + b + c) / 3)
    | _, _, _ => none
  else none

/-- Float `>` against possibly-NaN operands: false unless both are numbers. -/
def fgt : Option ℚ → Option ℚ → Bool
  | some a, some b => decide (b < a)
  | some _, none => false
  | none, _ => false

/-- Float `>=` against possibly-NaN operands. -/
def fge : Option ℚ → Option ℚ → Bool
  | some a, some b => decide (b ≤ a)
  | some _, none => false
  | none, _ => false

/-- The stochastic block of the technical score (lines 731-738): +15 on an
oversold bullish cross, nothing on an overbought bearish cross, +10 on a
plain bullish cross, nothing otherwise (NaN values fail every comparison). -/
def stochPoints (stoch_k stoch_d : Option ℚ) : ℕ × List String :=
  if fgt (some 20) stoch_k ∧ fgt stoch_k stoch_d then
    (15, ["Stochastic Oversold Cross (Buy)"])
  else if fgt stoch_k (some 80) ∧ fgt stoch_d stoch_k then (0, [])
  else if fgt stoch_k stoch_d then (10, [])
  else (0, [])

/-- The result dict of `get_technical_indicators`.  Fields that can be NaN
are `Option`; `macd`, `macd_signal`, `ema_9`, `ema_21` are always numbers
for a nonempty history. -/
structure TechnicalSnapshot where
  rsi : Option ℚ
  sma_50 : Option ℚ
  sma_200 : Option ℚ
  macd : ℚ
  macd_signal : ℚ
  stoch_k : Option ℚ
  stoch_d : Option ℚ
  ema_9 : ℚ
  ema_21 : ℚ
  bb_upper : Option ℚ
  bb_lower : Option ℚ
  technical_score : ℕ
  verdict : String
  action : String
  signals : List String
  trend : String
  deriving DecidableEq

/-- `_get_fallback_indicators` (lines 828-844). -/
def get_fallback_indicators (current_price : ℚ) : TechnicalSnapshot :=
  { rsi := some 50
    sma_50 := some current_price
    sma_200 := some (current_price * (95/100))
    macd := 0
    macd_signal := 0
    stoch_k := some 50
    stoch_d := some 50
    ema_9 := current_price
    ema_21 := current_price
    bb_upper := some (current_price * (105/100))
    bb_lower := some (current_price * (95/100))
    technical_score := 50
    verdict := "Data Not Available"
    action := "HOLD"
    signals := ["Insufficient Data"]
    trend := "Data Not Available" }

/-- `get_technical_indicators` (lines 644-788) on the history series the
source ends up with (the provided one, or the result of the yfinance fetch
that replaces a missing/empty provided history).  The empty-symbol early
return and the `except` fallback (unreachable: the body raises nothing in
exact arithmetic) are outside this model.  The unused `prev = iloc[-2]` row
and the display-only rounding of the latest values are modeled as in the
source (`round(x, 2)` on each numeric output). -/
def get_technical_indicators (sqrtFn : ℚ → ℚ) (hist : List Bar)
    (current_price : ℚ) : TechnicalSnapshot :=
  if hist.length = 0 then get_fallback_indicators current_price
  else
    let n := hist.length - 1
    let closes := hist.map (·.close)
    let sma_50 := rollingMeanAt closes 50 n
    let sma_200 := rollingMeanAt closes 200 n
    let rsi := rsiAt closes n
    let macd_list := List.zipWith (fun a b => a - b) (ewma (2/13) closes) (ewma (2/27) closes)
    let macd_line := macd_list.getD n 0
    let signal_line := (ewma (1/5) macd_list).getD n 0
    let stoch_k := stochKAt hist n
    let stoch_d := stochDAt hist n
    let ema_9 := (ewma (1/5) closes).getD n 0
    let ema_21 := (ewma (1/11) closes).getD n 0
    let bb_sma := rollingMeanAt closes 20 n
    let bb_std := rollingStdAt sqrtFn closes 20 n
    let bb_upper :=
      match bb_sma, bb_std with
      | some m, some sd => some (m + sd * 2)
      | _, _ => none
    let bb_lower :=
      match bb_sma, bb_std with
      | some m, some sd => some (m - sd * 2)
      | _, _ => none
    let cp := some current_price
    let long_pts : ℕ :=
      (if fgt cp sma_200 then 15 else 0) + (if fgt cp sma_50 then 5 else 0)
    let long_sigs := if fgt cp sma_200 then ["Price > SMA200 (Long Term Bullish)"] else []
    let ema_pts : ℕ := if ema_21 < ema_9 then 20 else 0
    let ema_sigs :=
      if ema_21 < ema_9 then ["EMA 9 > EMA 21 (Short Term Bullish)"]
      else ["EMA 9 < EMA 21 (Short Term Bearish)"]
    let rsi_block : ℕ × List String :=
      match rsi with
      | some r =>
        if 40 ≤ r ∧ r ≤ 70 then (15, [])
        else if 70 < r then (5, ["RSI Overbought (>70)"])
        else if r < 30 then (10, ["RSI Oversold (<30) - Potential Bounce"])
        else (0, [])
      | none => (0, [])
    let macd_pts : ℕ := if signal_line < macd_line then 15 else 0
    let macd_sigs := if signal_line < macd_line then ["MACD Bullish Crossover"] else []
    let stoch_block := stochPoints stoch_k stoch_d
    let bb_block : ℕ × List String :=
      if fgt cp bb_lower ∧ fgt bb_upper cp then (15, [])
      else if fge cp bb_upper then (10, ["Price hitting Upper BB (Momentum)"])
      else if fge bb_lower cp then (5, ["Price at Lower BB (Support)"])
      else (0, [])
    let tech_score := long_pts + ema_pts + rsi_block.1 + macd_pts + stoch_block.1 +
      bb_block.1
    let verdict_action : String × String :=
      if 80 ≤ tech_score then ("Strong Bullish", "BUY")
      else if 60 ≤ tech_score then ("Bullish", "ACCUMULATE")
      else if 40 ≤ tech_score then ("Neutral", "HOLD")
      else ("Bearish", "AVOID")
    { rsi := rsi.map round2
      sma_50 := sma_50.map round2
      sma_200 := sma_200.map round2
      macd := round2 macd_line
      macd_signal := round2 signal_line
      stoch_k := stoch_k.map round2
      stoch_d := stoch_d.map round2
      ema_9 := round2 ema_9
      ema_21 := round2 ema_21
      bb_upper := bb_upper.map round2
      bb_lower := bb_lower.map round2
      technical_score := tech_score
      verdict := verdict_action.1
      action := verdict_action.2
      signals := long_sigs ++ ema_sigs ++ rsi_block.2 ++ macd_sigs ++ stoch_block.2 ++
        bb_block.2
      trend := verdict_action.1 }

/-! ### Theorems -/

/-- C6: The Altman Z-score zone classification satisfies `z > 2.99` →
"Safe", `1.81 < z ≤ 2.99` → "Grey", `z ≤ 1.81` → "Distress" (the source
labels the zones "Safe (Green)", "Grey Zone (Caution)", "Distress (Red)");
in particular `z = 3.0` is Safe, `z = 2.0` Grey, `z = 1.0` Distress, and the
boundary values `2.99` and `1.81` classify as Grey and Distress. -/
theorem altman_zone_classification :
    (∀ z : ℚ, 299/100 < z → altman_zone z = "Safe (Green)") ∧
    (∀ z : ℚ, 181/100 < z → z ≤ 299/100 → altman_zone z = "Grey Zone (Caution)") ∧
    (∀ z : ℚ, z ≤ 181/100 → altman_zone z = "Distress (Red)") ∧
    altman_zone 3 = "Safe (Green)" ∧
    altman_zone 2 = "Grey Zone (Caution)" ∧
    altman_zone 1 = "Distress (Red)" ∧
    altman_zone (299/100) = "Grey Zone (Caution)" ∧
    altman_zone (181/100) = "Distress (Red)" := by
  refine ⟨?_, ?_, ?_, by with_unfolding_all decide, by with_unfolding_all decide,
    by with_unfolding_all decide, by with_unfolding_all decide, by with_unfolding_all decide⟩
  · intro z hz
    simp [altman_zone, hz]
  · intro z h1 h2
    have : ¬ (z > 299/100) := not_lt.mpr h2
    simp [altman_zone, this, h1]
  · intro z hz
    have h1 : ¬ (z > 299/100) := not_lt.mpr (hz.trans (by norm_num))
    have h2 : ¬ (z > 181/100) := not_lt.mpr hz
    simp [altman_zone, h1, h2]

/-- Witness for C6: the classification theorem applied at `z = 3`. -/
theorem altman_zone_classification_witness :
    altman_zone 3 = "Safe (Green)" :=
  altman_zone_classification.1 3 (by norm_num)

/-- C5: The Piotroski F-score is always an integer in `[0, 9]`, and whenever
all nine conditions hold (positive ROA, positive operating cash flow,
increasing ROA, OCF greater than net income, leverage not increasing,
current ratio increasing, no share-count increase, gross margin increasing,
asset turnover increasing) the score equals 9. -/
theorem piotroski_score_range_and_perfect :
    (∀ od : Option PiotroskiData, get_piotroski_f_score od ≤ 9) ∧
    (∀ d : PiotroskiData,
      0 < pROA d → 0 < d.ocf → pROAPrev d < pROA d → d.net_income < d.ocf →
      pLeverage d ≤ pLeveragePrev d → pCurrRatioPrev d < pCurrRatio d →
      pShares d ≤ pSharesPrev d → pGrossMarginPrev d < pGrossMargin d →
      pAssetTurnoverPrev d < pAssetTurnover d →
      get_piotroski_f_score (some d) = 9) := by
  constructor
  · intro od
    match od with
    | none => simp [get_piotroski_f_score]
    | some d =>
      have h : ∀ (p : Prop) (inst : Decidable p), (if p then (1:ℕ) else 0) ≤ 1 := by
        intro p inst; split <;> omega
      simp only [get_piotroski_f_score, piotroski_score]
      calc (if 0 < pROA d then 1 else 0) + (if 0 < d.ocf then 1 else 0) +
            (if pROAPrev d < pROA d then 1 else 0) + (if d.net_income < d.ocf then 1 else 0) +
            (if pLeverage d ≤ pLeveragePrev d then 1 else 0) +
            (if pCurrRatioPrev d < pCurrRatio d then 1 else 0) +
            (if pShares d ≤ pSharesPrev d then 1 else 0) +
            (if pGrossMarginPrev d < pGrossMargin d then 1 else 0) +
            (if pAssetTurnoverPrev d < pAssetTurnover d then 1 else 0) ≤
            1 + 1 + 1 + 1 + 1 + 1 + 1 + 1 + 1 :=
          add_le_add (add_le_add (add_le_add (add_le_add (add_le_add (add_le_add
            (add_le_add (add_le_add (h _ _) (h _ _)) (h _ _)) (h _ _)) (h _ _))
            (h _ _)) (h _ _)) (h _ _)) (h _ _)
        _ = 9 := by norm_num
  · intro d h1 h2 h3 h4 h5 h6 h7 h8 h9
    simp only [get_piotroski_f_score, piotroski_score,
      if_pos h1, if_pos h2, if_pos h3, if_pos h4, if_pos h5,
      if_pos h6, if_pos h7, if_pos h8, if_pos h9]

/-- Witness for C5: a concrete two-year input satisfying all nine conditions
(ROA rising 4% → 6%, OCF 7 positive and above net income 6, long-term debt
falling 10 → 5, current ratio rising 1.5 → 2, flat share count, gross margin
rising 0.4 → 0.5, asset turnover rising 0.5 → 0.6) scores exactly 9. -/
theorem piotroski_score_perfect_witness :
    get_piotroski_f_score (some
      { net_income := 6, net_income_prev := 4,
        total_assets := 100, total_assets_prev := 100,
        ocf := 7, lt_debt := 5, lt_debt_prev := 10,
        curr_assets := 20, curr_assets_prev := 15,
        curr_liab := 10, curr_liab_prev := 10,
        ord_shares := 100, ord_shares_prev := 100,
        common_stock := 0, common_stock_prev := 0,
        revenue := 60, revenue_prev := 50,
        gross_profit := 30, gross_profit_prev := 20 }) = 9 := by
  apply piotroski_score_range_and_perfect.2 <;> with_unfolding_all decide

/-- C2: the recommendation follows the decision table on `total_score` and
margin of safety: score ≥ 12 ∧ MoS ≥ 20 → Buy with band
`[0.95·price, 1.05·price]`; else score ≥ 10 ∧ MoS ≥ 10 → Buy with band
`[0.9·price, price]`; else score ≥ 8 ∨ MoS ≥ 0 → Hold with target
`0.8·intrinsic` and band `[0.9·target, target]`; else Avoid with target
`0.7·intrinsic` and band `[0.9·target, target]`.  For price 100, intrinsic
value 150 and score 13 the margin of safety is exactly `100/3` (33.3% to one
decimal) and the result is Buy with band `[95, 105]`. -/
theorem recommendation_decision_table (price iv : ℚ) (score : ℕ) :
    (12 ≤ score → 20 ≤ margin_of_safety_calc price iv →
      (generate_recommendation price iv score).status = "Buy" ∧
      (generate_recommendation price iv score).buy_price_min = price * (95/100) ∧
      (generate_recommendation price iv score).buy_price_max = price * (105/100)) ∧
    (¬ (12 ≤ score ∧ 20 ≤ margin_of_safety_calc price iv) →
      10 ≤ score → 10 ≤ margin_of_safety_calc price iv →
      (generate_recommendation price iv score).status = "Buy" ∧
      (generate_recommendation price iv score).buy_price_min = price * (9/10) ∧
      (generate_recommendation price iv score).buy_price_max = price) ∧
    (¬ (12 ≤ score ∧ 20 ≤ margin_of_safety_calc price iv) →
      ¬ (10 ≤ score ∧ 10 ≤ margin_of_safety_calc price iv) →
      (8 ≤ score ∨ 0 ≤ margin_of_safety_calc price iv) →
      (generate_recommendation price iv score).status = "Hold" ∧
      (generate_recommendation price iv score).target_price = iv * (8/10) ∧
      (generate_recommendation price iv score).buy_price_min = iv * (8/10) * (9/10) ∧
      (generate_recommendation price iv score).buy_price_max = iv * (8/10)) ∧
    (¬ (12 ≤ score ∧ 20 ≤ margin_of_safety_calc price iv) →
      ¬ (10 ≤ score ∧ 10 ≤ margin_of_safety_calc price iv) →
      ¬ (8 ≤ score ∨ 0 ≤ margin_of_safety_calc price iv) →
      (generate_recommendation price iv score).status = "Avoid" ∧
      (generate_recommendation price iv score).target_price = iv * (7/10) ∧
      (generate_recommendation price iv score).buy_price_min = iv * (7/10) * (9/10) ∧
      (generate_recommendation price iv score).buy_price_max = iv * (7/10)) ∧
    (margin_of_safety_calc 100 150 = 100/3 ∧
      round ((margin_of_safety_calc 100 150) * 10) = (333 : ℤ) ∧
      (generate_recommendation 100 150 13).status = "Buy" ∧
      (generate_recommendation 100 150 13).buy_price_min = 95 ∧
      (generate_recommendation 100 150 13).buy_price_max = 105) := by
  refine ⟨?_, ?_, ?_, ?_, ?_⟩
  · intro hs hm
    simp [generate_recommendation, hs, hm]
  · intro hn hs hm
    simp [generate_recommendation, hn, hs, hm]
  · intro hn1 hn2 hd
    simp [generate_recommendation, hn1, hn2, hd]
  · intro hn1 hn2 hd
    simp [generate_recommendation, hn1, hn2, hd]
  · exact ⟨by norm_num [margin_of_safety_calc], by with_unfolding_all decide,
      by with_unfolding_all decide, by with_unfolding_all decide,
      by with_unfolding_all decide⟩

/-- Witness for C2: the decision table applied at the spec scenario
price 100, intrinsic value 150, score 13. -/
theorem recommendation_decision_table_witness :
    (generate_recommendation 100 150 13).status = "Buy" ∧
    (generate_recommendation 100 150 13).buy_price_min = 95 ∧
    (generate_recommendation 100 150 13).buy_price_max = 105 := by
  have h := (recommendation_decision_table 100 150 13).1
    (by norm_num) (by norm_num [margin_of_safety_calc])
  refine ⟨h.1, by rw [h.2.1]; norm_num, by rw [h.2.2]; norm_num⟩

/-- The two-decimal rounding moves a value by at most half a cent. -/
theorem round2_close (x : ℚ) : |round2 x - x| ≤ 1/200 := by
  unfold round2
  have h := abs_sub_round (x * 100)
  have h2 : ((round (x * 100) : ℤ) : ℚ) / 100 - x
      = (((round (x * 100) : ℤ) : ℚ) - x * 100) / 100 := by ring
  rw [h2, abs_div, abs_of_pos (show (0:ℚ) < 100 by norm_num)]
  have h3 : |((round (x * 100) : ℤ) : ℚ) - x * 100| = |x * 100 - ((round (x * 100) : ℤ) : ℚ)| :=
    abs_sub_comm _ _
  linarith [h, h3]

/-- C3 counterexample: a snapshot on the DCF path (positive price, positive
effective FCF, positive share count) whose returned intrinsic value falls
strictly below the lower sanity bound `0.2 × price`: at price 1.11 the
clamped value `0.222` rounds down to `0.22`. -/
theorem dcf_band_counterexample :
    0 < (111/100 : ℚ) ∧
    0 < effective_fcf (111/100) (1/1000000) 0 0 1 ∧
    (0:ℚ) < 1 ∧
    calculate_buffett_dcf_intrinsic_value (111/100) (1/1000000) 1 0 0 10 <
      (1/5) * (111/100) := by
  refine ⟨by norm_num, by with_unfolding_all decide, by norm_num, ?_⟩
  with_unfolding_all decide

/-- C3 amended: on the DCF path (positive price, positive effective FCF,
positive shares) the value is clamped to `[0.2 × price, 5 × price]` before
the final two-decimal rounding, so the returned value lies within that band
widened by the half-cent rounding error `1/200`. -/
theorem dcf_band_amended (cp fcf sh ni eps eg : ℚ)
    (hp : 0 < cp) (hf : 0 < effective_fcf cp fcf ni eps sh) (hs : 0 < sh) :
    (1/5) * cp - 1/200 ≤ calculate_buffett_dcf_intrinsic_value cp fcf sh ni eps eg ∧
    calculate_buffett_dcf_intrinsic_value cp fcf sh ni eps eg ≤ 5 * cp + 1/200 := by
  unfold calculate_buffett_dcf_intrinsic_value
  dsimp only
  have hcond : ¬ (effective_fcf cp fcf ni eps sh ≤ 0 ∨ sh ≤ 0) := by
    push_neg
    exact ⟨hf, hs⟩
  rw [if_neg hcond, if_pos hp]
  set v := dcf_per_share (effective_fcf cp fcf ni eps sh) sh eg with hvdef
  split_ifs with h0 h5 h15
  · constructor <;> linarith
  · have h := abs_le.mp (round2_close (cp * 5))
    constructor <;> linarith [h.1, h.2]
  · have h := abs_le.mp (round2_close (cp * (1/5)))
    constructor <;> linarith [h.1, h.2]
  · have hub : v ≤ 5 * cp := by
      have := not_lt.mp h5
      calc v = (v / cp) * cp := by field_simp
        _ ≤ 5 * cp := by
          apply mul_le_mul_of_nonneg_right this (le_of_lt hp)
    have hlb : (1/5) * cp ≤ v := by
      have := not_lt.mp h15
      calc (1/5) * cp ≤ (v / cp) * cp := by
            apply mul_le_mul_of_nonneg_right this (le_of_lt hp)
        _ = v := by field_simp
    have h := abs_le.mp (round2_close v)
    constructor <;> linarith [h.1, h.2]

/-- Witness for C3 amended: a concrete DCF-path snapshot (price 100, FCF 10,
one share, 10% growth) whose returned value obeys the widened band. -/
theorem dcf_band_amended_witness :
    (1/5) * 100 - 1/200 ≤ calculate_buffett_dcf_intrinsic_value 100 10 1 0 0 10 ∧
    calculate_buffett_dcf_intrinsic_value 100 10 1 0 0 10 ≤ 5 * 100 + 1/200 :=
  dcf_band_amended 100 10 1 0 0 10 (by norm_num) (by with_unfolding_all decide)
    (by norm_num)

/-! ### Reverse-DCF lemmas and C4 -/

theorem projFcf_eq (fcf g : ℚ) : ∀ n, projFcf fcf g n = fcf * (1 + g) ^ n
  | 0 => by simp [projFcf]
  | n + 1 => by rw [projFcf, projFcf_eq fcf g n, pow_succ]; ring

/-- Closed polynomial form of the constant-growth DCF at the default
parameters (discount 10%, terminal growth 2.5%, 10 years). -/
theorem calculate_dcf_value_eq (fps g : ℚ) :
    calculate_dcf_value fps g (1/10) (1/40) 10 =
      fps * ((1+g) * (10/11) + (1+g)^2 * (10/11)^2 + (1+g)^3 * (10/11)^3 +
        (1+g)^4 * (10/11)^4 + (1+g)^5 * (10/11)^5 + (1+g)^6 * (10/11)^6 +
        (1+g)^7 * (10/11)^7 + (1+g)^8 * (10/11)^8 + (1+g)^9 * (10/11)^9 +
        (1+g)^10 * (10/11)^10 + (1+g)^10 * (41/3) * (10/11)^10) := by
  simp only [calculate_dcf_value, projPvSum, projFcf_eq]
  norm_num
  ring

/-- Difference of powers bound on `[0, 2]`: `x^n - y^n ≤ n·2^n·(x - y)`. -/
theorem pow_sub_pow_le_mul (x y : ℚ) (hy : 0 ≤ y) (hxy : y ≤ x) (hx : x ≤ 2) :
    ∀ n : ℕ, x ^ n - y ^ n ≤ (n : ℚ) * 2 ^ n * (x - y)
  | 0 => by simp
  | n + 1 => by
    have ih := pow_sub_pow_le_mul x y hy hxy hx n
    have hx0 : 0 ≤ x := le_trans hy hxy
    have hyn : y ^ n ≤ 2 ^ n := pow_le_pow_left₀ hy (le_trans hxy hx) n
    have hmono : y ^ n ≤ x ^ n := pow_le_pow_left₀ hy hxy n
    have hd : 0 ≤ x ^ n - y ^ n := sub_nonneg.mpr hmono
    have h1 : x * (x ^ n - y ^ n) ≤ 2 * ((n : ℚ) * 2 ^ n * (x - y)) := by
      calc x * (x ^ n - y ^ n) ≤ 2 * (x ^ n - y ^ n) := mul_le_mul_of_nonneg_right hx hd
        _ ≤ 2 * ((n : ℚ) * 2 ^ n * (x - y)) := by linarith
    have h2 : y ^ n * (x - y) ≤ 2 ^ n * (x - y) :=
      mul_le_mul_of_nonneg_right hyn (sub_nonneg.mpr hxy)
    have key : x ^ (n+1) - y ^ (n+1) = x * (x ^ n - y ^ n) + y ^ n * (x - y) := by
      rw [pow_succ, pow_succ]; ring
    have hpow : (0:ℚ) ≤ 2 ^ n * (x - y) :=
      mul_nonneg (pow_nonneg (by norm_num) n) (sub_nonneg.mpr hxy)
    rw [key]
    push_cast
    rw [pow_succ]
    nlinarith [h1, h2, hpow]

/-- Monotonicity of the constant-growth DCF in the growth rate,
for nonnegative per-share FCF and growth above -100%. -/
theorem calculate_dcf_value_mono (fps a b : ℚ) (hfps : 0 ≤ fps)
    (ha : -(1/2) ≤ a) (hab : a ≤ b) :
    calculate_dcf_value fps a (1/10) (1/40) 10 ≤
      calculate_dcf_value fps b (1/10) (1/40) 10 := by
  rw [calculate_dcf_value_eq, calculate_dcf_value_eq]
  have h0 : (0:ℚ) ≤ 1 + a := by linarith
  have h1 : 1 + a ≤ 1 + b := by linarith
  gcongr

/-- Lipschitz bound for the constant-growth DCF in the growth rate on the
bisection bracket `[-1/2, 1]`. -/
theorem calculate_dcf_value_lipschitz (fps a b : ℚ) (hfps : 0 ≤ fps)
    (ha : -(1/2) ≤ a) (hab : a ≤ b) (hb : b ≤ 1) :
    calculate_dcf_value fps b (1/10) (1/40) 10 -
      calculate_dcf_value fps a (1/10) (1/40) 10 ≤ 250000 * fps * (b - a) := by
  rw [calculate_dcf_value_eq, calculate_dcf_value_eq]
  have hy : (0:ℚ) ≤ 1 + a := by linarith
  have hxy : 1 + a ≤ 1 + b := by linarith
  have hx : 1 + b ≤ 2 := by linarith
  have hp := fun n => mul_le_mul_of_nonneg_left
    (pow_sub_pow_le_mul (1 + b) (1 + a) hy hxy hx n) hfps
  have p1 := hp 1
  have p2 := hp 2
  have p3 := hp 3
  have p4 := hp 4
  have p5 := hp 5
  have p6 := hp 6
  have p7 := hp 7
  have p8 := hp 8
  have p9 := hp 9
  have p10 := hp 10
  norm_num at p1 p2 p3 p4 p5 p6 p7 p8 p9 p10
  nlinarith [p1, p2, p3, p4, p5, p6, p7, p8, p9, p10]

/-- Correctness of the bisection loop: if the target price is bracketed and
the width-times-Lipschitz budget fits in the remaining fuel, the returned
growth percentage reproduces the target within the 0.01 tolerance. -/
theorem reverseDcfLoop_correct (fps P : ℚ) (hfps : 0 < fps) :
    ∀ (fuel : ℕ) (low high : ℚ), -(1/2) ≤ low → low ≤ high → high ≤ 1 →
    calculate_dcf_value fps low (1/10) (1/40) 10 < P →
    P ≤ calculate_dcf_value fps high (1/10) (1/40) 10 →
    250000 * fps * (high - low) < 1/100 * 2 ^ fuel →
    |calculate_dcf_value fps
        (reverseDcfLoop fps (1/10) (1/40) 10 P (fuel + 1) low high / 100)
        (1/10) (1/40) 10 - P| < 1/100 := by
  intro fuel
  induction fuel with
  | zero =>
    intro low high hlo hlh hhi hDlo hDhi hw
    simp only [reverseDcfLoop, ite_self, if_true]
    rw [mul_div_cancel_right₀ _ (show (100:ℚ) ≠ 0 by norm_num)]
    have hmlo : low ≤ (low + high) / 2 := by linarith
    have hmhi : (low + high) / 2 ≤ high := by linarith
    have h1 := calculate_dcf_value_mono fps low ((low + high) / 2) hfps.le hlo hmlo
    have h2 := calculate_dcf_value_mono fps ((low + high) / 2) high hfps.le
      (by linarith) hmhi
    have hL := calculate_dcf_value_lipschitz fps low high hfps.le hlo hlh hhi
    rw [abs_lt]
    norm_num at hw
    constructor <;> linarith
  | succ n ih =>
    intro low high hlo hlh hhi hDlo hDhi hw
    conv_lhs => rw [reverseDcfLoop]
    rw [if_neg (Nat.succ_ne_zero n)]
    split_ifs with htol hcmp
    · rw [mul_div_cancel_right₀ _ (show (100:ℚ) ≠ 0 by norm_num)]
      exact htol
    · have hwidth : 250000 * fps * (high - (low + high) / 2) < 1/100 * 2 ^ n := by
        rw [pow_succ] at hw
        nlinarith [hw]
      exact ih ((low + high) / 2) high (by linarith) (by linarith) hhi hcmp hDhi hwidth
    · have hwidth : 250000 * fps * ((low + high) / 2 - low) < 1/100 * 2 ^ n := by
        rw [pow_succ] at hw
        nlinarith [hw]
      exact ih low ((low + high) / 2) hlo (by linarith) (by linarith) hDlo
        (not_lt.mp hcmp) hwidth

/-- C4 amended: for positive price, FCF and shares, when the price fed to the
reverse DCF lies inside the range attainable by the constant-growth DCF over
the bisection bracket `g ∈ [-50%, 100%]` (and the per-share FCF is at most
`10^9`), the bisection returns a growth percentage whose constant-growth
forward value reproduces that price within the stated 0.01 tolerance. -/
theorem reverse_dcf_roundtrip_amended (price fcf shares : ℚ)
    (hp : 0 < price) (hf : 0 < fcf) (hs : 0 < shares)
    (hbound : fcf / shares ≤ 10 ^ 9)
    (hlo : calculate_dcf_value (fcf / shares) (-(1/2)) (1/10) (1/40) 10 < price)
    (hhi : price ≤ calculate_dcf_value (fcf / shares) 1 (1/10) (1/40) 10) :
    ∃ g, calculate_reverse_dcf price fcf shares (1/10) (1/40) 10 = some g ∧
      |calculate_dcf_value (fcf / shares) (g / 100) (1/10) (1/40) 10 - price| < 1/100 := by
  have hfps : 0 < fcf / shares := div_pos hf hs
  have hne : ¬ (price ≤ 0 ∨ fcf ≤ 0 ∨ shares ≤ 0) := by
    push_neg
    exact ⟨hp, hf, hs⟩
  refine ⟨reverseDcfLoop (fcf / shares) (1/10) (1/40) 10 price 100 (-(1/2)) 1, ?_, ?_⟩
  · simp only [calculate_reverse_dcf, if_neg hne]
  · have hbig : (10:ℚ) ^ 9 * 375000 < 1/100 * 2 ^ 99 := by norm_num
    have hw : 250000 * (fcf / shares) * ((1:ℚ) - -(1/2)) < 1/100 * 2 ^ 99 := by
      nlinarith [hbound, hfps, hbig]
    have h := reverseDcfLoop_correct (fcf / shares) price hfps 99 (-(1/2)) 1
      (by norm_num) (by norm_num) (by norm_num) hlo hhi hw
    exact h

/-- Witness for C4 amended: price 150, FCF 10, one share is bracketed and
the round trip closes within tolerance. -/
theorem reverse_dcf_roundtrip_amended_witness :
    ∃ g, calculate_reverse_dcf 150 10 1 (1/10) (1/40) 10 = some g ∧
      |calculate_dcf_value (10 / 1) (g / 100) (1/10) (1/40) 10 - 150| < 1/100 :=
  reverse_dcf_roundtrip_amended 150 10 1 (by norm_num) (by norm_num) (by norm_num)
    (by norm_num) (by with_unfolding_all decide) (by with_unfolding_all decide)


/-- The bisection loop always returns a percentage whose growth rate stays
inside the current bracket. -/
theorem reverseDcfLoop_mem (fps r tg P : ℚ) (y : ℕ) :
    ∀ (fuel : ℕ) (low high : ℚ), low ≤ high →
      low ≤ reverseDcfLoop fps r tg y P fuel low high / 100 ∧
      reverseDcfLoop fps r tg y P fuel low high / 100 ≤ high := by
  intro fuel
  induction fuel with
  | zero =>
    intro low high h
    simp only [reverseDcfLoop]
    rw [mul_div_cancel_right₀ _ (show (100:ℚ) ≠ 0 by norm_num)]
    constructor <;> linarith
  | succ n ih =>
    intro low high h
    rw [reverseDcfLoop]
    split_ifs with h1 h2 h3
    · rw [mul_div_cancel_right₀ _ (show (100:ℚ) ≠ 0 by norm_num)]
      constructor <;> linarith
    · rw [mul_div_cancel_right₀ _ (show (100:ℚ) ≠ 0 by norm_num)]
      constructor <;> linarith
    · have hh := ih ((low + high) / 2) high (by linarith)
      exact ⟨le_trans (by linarith) hh.1, hh.2⟩
    · have hh := ih low ((low + high) / 2) (by linarith)
      exact ⟨hh.1, le_trans hh.2 (by linarith)⟩

/-- C4 counterexample: price 1000, FCF 0.01, one share.  The forward DCF
clamps the per-share value up to `0.2 × price = 200`, which exceeds every
value the constant-growth DCF can reach on the bisection bracket
(`calculate_dcf_value` at growth 100% is below 199), so the growth rate
returned by the reverse DCF reproduces neither the fed value 200 nor the
original price 1000 within the 0.01 tolerance. -/
theorem reverse_dcf_roundtrip_counterexample :
    calculate_buffett_dcf_intrinsic_value 1000 (1/100) 1 0 0 10 = 200 ∧
    (∃ g, calculate_reverse_dcf 200 (1/100) 1 (1/10) (1/40) 10 = some g ∧
      ¬ (|calculate_dcf_value (1/100/1) (g/100) (1/10) (1/40) 10 - 200| < 1/100) ∧
      ¬ (|calculate_dcf_value (1/100/1) (g/100) (1/10) (1/40) 10 - 1000| < 1/100)) := by
  refine ⟨by with_unfolding_all decide,
    ⟨reverseDcfLoop (1/100/1) (1/10) (1/40) 10 200 100 (-(1/2)) 1, ?_, ?_, ?_⟩⟩
  · have hne : ¬ ((200:ℚ) ≤ 0 ∨ (1/100:ℚ) ≤ 0 ∨ (1:ℚ) ≤ 0) := by norm_num
    simp only [calculate_reverse_dcf, if_neg hne]
  all_goals {
    have hmem := reverseDcfLoop_mem (1/100/1) (1/10) (1/40) 200 10 100 (-(1/2)) 1
      (by norm_num)
    have hmono := calculate_dcf_value_mono (1/100/1)
      (reverseDcfLoop (1/100/1) (1/10) (1/40) 10 200 100 (-(1/2)) 1 / 100) 1
      (by norm_num) (le_trans (by norm_num) hmem.1) hmem.2
    have hD1 : calculate_dcf_value (1/100/1) 1 (1/10) (1/40) 10 < 199 := by
      with_unfolding_all decide
    rw [not_lt, le_abs]
    right
    linarith
  }

/-- Invariant of the scoring fold: the accumulated score equals the number of
passed results accumulated so far, and lengths add up. -/
theorem scoreStep_foldl (s : StockData) :
    ∀ (l : List CriterionSpec) (acc : List CriterionResult × ℕ),
      acc.2 = (acc.1.filter (·.passed)).length →
      ((l.foldl (scoreStep s) acc).2 =
          ((l.foldl (scoreStep s) acc).1.filter (·.passed)).length ∧
        (l.foldl (scoreStep s) acc).1.length = acc.1.length + l.length) := by
  intro l
  induction l with
  | nil =>
    intro acc h
    simpa using h
  | cons c t ih =>
    intro acc h
    simp only [List.foldl_cons]
    have hstep : (scoreStep s acc c).2 =
        ((scoreStep s acc c).1.filter (·.passed)).length := by
      simp only [scoreStep, List.filter_append, List.length_append, h]
      by_cases hp : (evaluate_criterion s c).passed
      · simp [hp]
      · simp [hp]
    have h2 := ih (scoreStep s acc c) hstep
    refine ⟨h2.1, ?_⟩
    rw [h2.2]
    simp only [scoreStep, List.length_append, List.length_cons, List.length_nil]
    omega

/-- C1: for every input snapshot, `analyze_stock` returns a `total_score`
equal to the number of returned metric entries with `passed = true`, over
the fixed 15-entry criteria table with one point per criterion, so the score
is an integer in `[0, 15]`. -/
theorem analyze_stock_score_is_passed_count (s : StockData) :
    (analyze_stock s).2.total_score =
      ((analyze_stock s).2.metrics.filter (·.passed)).length ∧
    (analyze_stock s).2.metrics.length = 15 ∧
    (analyze_stock s).2.total_score ≤ 15 := by
  have h := scoreStep_foldl (update_with_derived s) buffett_criteria ([], 0) (by simp)
  have hm : (analyze_stock s).2.metrics =
      (buffett_criteria.foldl (scoreStep (update_with_derived s)) ([], 0)).1 := rfl
  have hs : (analyze_stock s).2.total_score =
      (buffett_criteria.foldl (scoreStep (update_with_derived s)) ([], 0)).2 := rfl
  have h15 : (analyze_stock s).2.metrics.length = 15 := by
    rw [hm, h.2]
    rfl
  refine ⟨by rw [hs, hm]; exact h.1, h15, ?_⟩
  calc (analyze_stock s).2.total_score
      = ((analyze_stock s).2.metrics.filter (·.passed)).length := by
        rw [hs, hm]; exact h.1
    _ ≤ (analyze_stock s).2.metrics.length := List.length_filter_le _ _
    _ = 15 := h15

/-- C9 counterexample: `analyze_stock` does not leave its input snapshot
unchanged: `stock_data.update(derived_metrics)` adds the derived keys to the
caller's dict (here `roe` appears with value 0 where the input had no such
key), so the post-call state differs from the input. -/
theorem analyze_stock_mutates_input :
    (analyze_stock sampleSnapshot).1.roe = some 0 ∧
    sampleSnapshot.roe = none ∧
    (analyze_stock sampleSnapshot).1 ≠ sampleSnapshot := by
  refine ⟨by with_unfolding_all decide, by with_unfolding_all decide, ?_⟩
  with_unfolding_all decide

/-- C9 amended: the only mutation `analyze_stock` performs on its input is
merging the derived-metric keys: the post-call snapshot is exactly
`update_with_derived` of the input; every raw field is preserved except
`free_cash_flow` (overwritten by its positivity flag) and
`promoter_holding` (re-written with its defaulted value); each derived key
is set to its derived value; and the result is a pure function of the input
(modulo the excluded wall-clock timestamp). -/
theorem analyze_stock_frame (s : StockData) :
    (analyze_stock s).1 = update_with_derived s ∧
    (analyze_stock s).1.current_price = s.current_price ∧
    (analyze_stock s).1.book_value = s.book_value ∧
    (analyze_stock s).1.pe_ratio = s.pe_ratio ∧
    (analyze_stock s).1.pb_ratio = s.pb_ratio ∧
    (analyze_stock s).1.eps = s.eps ∧
    (analyze_stock s).1.shares_outstanding = s.shares_outstanding ∧
    (analyze_stock s).1.market_cap = s.market_cap ∧
    (analyze_stock s).1.dividend_yield = s.dividend_yield ∧
    (analyze_stock s).1.earnings_growth = s.earnings_growth ∧
    (analyze_stock s).1.revenue_growth = s.revenue_growth ∧
    (analyze_stock s).1.revenue_growth_years = s.revenue_growth_years ∧
    (analyze_stock s).1.earnings_growth_years = s.earnings_growth_years ∧
    (analyze_stock s).1.total_debt = s.total_debt ∧
    (analyze_stock s).1.total_stockholder_equity = s.total_stockholder_equity ∧
    (analyze_stock s).1.total_current_assets = s.total_current_assets ∧
    (analyze_stock s).1.total_current_liabilities = s.total_current_liabilities ∧
    (analyze_stock s).1.net_income = s.net_income ∧
    (analyze_stock s).1.operating_income = s.operating_income ∧
    (analyze_stock s).1.total_revenue = s.total_revenue ∧
    (analyze_stock s).1.net_income_history = s.net_income_history ∧
    (analyze_stock s).1.statements_piotroski = s.statements_piotroski ∧
    (analyze_stock s).1.statements_roic = s.statements_roic ∧
    (analyze_stock s).1.statements_altman = s.statements_altman ∧
    (analyze_stock s).1.free_cash_flow =
      some (Sum.inr (derived_free_cash_flow_flag s)) ∧
    (analyze_stock s).1.promoter_holding = some (s.promoter_holding.getD 0) ∧
    (analyze_stock s).1.promoter_pledging = some 0 ∧
    (analyze_stock s).1.debt_to_equity = some (derived_debt_to_equity s) ∧
    (analyze_stock s).1.current_ratio = some (derived_current_ratio s) ∧
    (analyze_stock s).1.roe = some (derived_roe s) ∧
    (analyze_stock s).1.operating_margin = some (derived_operating_margin s) ∧
    (analyze_stock s).1.roce = some (derived_roce s) ∧
    (analyze_stock s).1.peg_ratio = some (derived_peg_ratio s) ∧
    (analyze_stock s).1.book_value_check = some (derived_book_value_check s) ∧
    (analyze_stock s).1.intrinsic_value = some (derived_intrinsic_value s) ∧
    (analyze_stock s).1.growth_alignment = some (derived_growth_alignment s) ∧
    (analyze_stock s).1.earnings_consistency = some () ∧
    (analyze_stock s).1.dividend_history = some (derived_dividend_history s) :=
  ⟨rfl, rfl, rfl, rfl, rfl, rfl, rfl, rfl, rfl, rfl, rfl, rfl, rfl, rfl, rfl,
   rfl, rfl, rfl, rfl, rfl, rfl, rfl, rfl, rfl, rfl, rfl, rfl, rfl, rfl, rfl,
   rfl, rfl, rfl, rfl, rfl, rfl, rfl, rfl⟩

/-- C10: on every branch of the recommendation decision table, the returned
`target_price` equals the returned `buy_price_max`; in particular on the
first Buy branch the target is `1.05 × price` and on the second it is the
price itself, not an intrinsic-value-derived target. -/
theorem recommendation_target_is_buy_max (price iv : ℚ) (score : ℕ) :
    (generate_recommendation price iv score).target_price =
      (generate_recommendation price iv score).buy_price_max ∧
    (12 ≤ score → 20 ≤ margin_of_safety_calc price iv →
      (generate_recommendation price iv score).target_price = price * (105/100)) ∧
    (¬ (12 ≤ score ∧ 20 ≤ margin_of_safety_calc price iv) → 10 ≤ score →
      10 ≤ margin_of_safety_calc price iv →
      (generate_recommendation price iv score).target_price = price) := by
  refine ⟨?_, ?_, ?_⟩
  · unfold generate_recommendation
    dsimp only
    split_ifs <;> rfl
  · intro h1 h2
    simp [generate_recommendation, h1, h2]
  · intro h1 h2 h3
    simp [generate_recommendation, h1, h2, h3]

/-- Witness for C10: at price 100, intrinsic value 150, score 13 the first
Buy branch fires and target = buy_price_max = 105. -/
theorem recommendation_target_is_buy_max_witness :
    (generate_recommendation 100 150 13).target_price =
      (generate_recommendation 100 150 13).buy_price_max ∧
    (generate_recommendation 100 150 13).target_price = 100 * (105/100) :=
  ⟨(recommendation_target_is_buy_max 100 150 13).1,
   (recommendation_target_is_buy_max 100 150 13).2.1 (by norm_num)
     (by norm_num [margin_of_safety_calc])⟩

/-- C7 amended: an empty price history yields the documented fallback
snapshot (technical_score 50, verdict "Data Not Available"), and the
computation is total (never raises); but a single-row history does not take
the fallback: all rolling windows are NaN, every scoring comparison is
false, and the result is technical_score 0 with verdict "Bearish" and
action "AVOID", for every bar, price and square-root routine. -/
theorem tech_empty_single (sqrtFn : ℚ → ℚ) (cp : ℚ) (b : Bar) :
    get_technical_indicators sqrtFn [] cp = get_fallback_indicators cp ∧
    (get_fallback_indicators cp).technical_score = 50 ∧
    (get_fallback_indicators cp).verdict = "Data Not Available" ∧
    (get_technical_indicators sqrtFn [b] cp).technical_score = 0 ∧
    (get_technical_indicators sqrtFn [b] cp).verdict = "Bearish" ∧
    (get_technical_indicators sqrtFn [b] cp).action = "AVOID" := by
  refine ⟨rfl, rfl, rfl, ?_, ?_, ?_⟩ <;>
  · simp [get_technical_indicators, get_fallback_indicators, rollingMeanAt,
      rsiAt, diffList, gainsOf, lossesOf, stochKAt, stochDAt, rollingMinAt,
      rollingMaxAt, rollingStdAt, ewma, ewmaAcc, fgt, fge, stochPoints,
      lt_irrefl]

/-- C7 counterexample: a price history with exactly one row does not return
the documented fallback: the verdict is "Bearish" (not "Data Not
Available") and the technical score is 0 (not 50). -/
theorem tech_single_row_counterexample :
    (get_technical_indicators (fun q => q) [⟨100, 100, 100, 100⟩] 100).verdict
      ≠ "Data Not Available" ∧
    (get_technical_indicators (fun q => q) [⟨100, 100, 100, 100⟩] 100).technical_score
      ≠ 50 ∧
    (get_technical_indicators (fun q => q) [⟨100, 100, 100, 100⟩] 100).verdict
      = "Bearish" ∧
    (get_technical_indicators (fun q => q) [⟨100, 100, 100, 100⟩] 100).technical_score
      = 0 := by
  refine ⟨?_, ?_, ?_, ?_⟩ <;> with_unfolding_all decide

/-- Witness for C7 amended: the theorem applied at price 100 and a concrete
bar. -/
theorem tech_empty_single_witness :
    get_technical_indicators (fun q => q) [] 100 = get_fallback_indicators 100 ∧
    (get_technical_indicators (fun q => q) [⟨1, 2, 1, 2⟩] 100).verdict = "Bearish" :=
  ⟨(tech_empty_single (fun q => q) 100 ⟨1, 2, 1, 2⟩).1,
   (tech_empty_single (fun q => q) 100 ⟨1, 2, 1, 2⟩).2.2.2.2.1⟩

/-- C8 amended: the stochastic %K division carries no explicit guard; on any
full 14-bar window whose rolling high equals its rolling low the float
division produces NaN (`none`) — not a zero-or-neutral numeric substitute —
and the NaN %K then contributes zero stochastic points and no signal
downstream; no exception is raised. -/
theorem stoch_flat_window_nan (bars : List Bar) (i : ℕ) (m : ℚ)
    (hmin : rollingMinAt (bars.map (·.low)) 14 i = some m)
    (hmax : rollingMaxAt (bars.map (·.high)) 14 i = some m) :
    stochKAt bars i = none ∧
    (∀ d : Option ℚ, stochPoints (stochKAt bars i) d = (0, [])) := by
  have hk : stochKAt bars i = none := by
    simp [stochKAt, hmin, hmax]
  refine ⟨hk, ?_⟩
  intro d
  rw [hk]
  cases d <;> rfl

set_option maxRecDepth 8000 in
/-- C8 counterexample: on a flat 14-bar series the %K at the first full
window is NaN (`none`), not the zero-or-neutral substitute the claim
asserts. -/
theorem stoch_flat_counterexample :
    stochKAt (List.replicate 14 ⟨5, 5, 5, 5⟩) 13 = none ∧
    ¬ (stochKAt (List.replicate 14 ⟨5, 5, 5, 5⟩) 13 = some 0 ∨
       stochKAt (List.replicate 14 ⟨5, 5, 5, 5⟩) 13 = some 50) := by
  constructor <;> with_unfolding_all decide

set_option maxRecDepth 8000 in
/-- Witness for C8 amended: the theorem applied to a concrete flat series. -/
theorem stoch_flat_window_nan_witness :
    stochKAt (List.replicate 14 ⟨7, 7, 7, 7⟩) 13 = none :=
  (stoch_flat_window_nan (List.replicate 14 ⟨7, 7, 7, 7⟩) 13 7
    (by with_unfolding_all decide) (by with_unfolding_all decide)).1

/-- Witness for C1: the score law instantiated on a concrete snapshot. -/
theorem analyze_stock_score_witness :
    (analyze_stock sampleSnapshot).2.total_score =
      ((analyze_stock sampleSnapshot).2.metrics.filter (·.passed)).length ∧
    (analyze_stock sampleSnapshot).2.metrics.length = 15 ∧
    (analyze_stock sampleSnapshot).2.total_score ≤ 15 :=
  analyze_stock_score_is_passed_count sampleSnapshot

/-- Witness for C9 amended: the frame law instantiated on a concrete
snapshot. -/
theorem analyze_stock_frame_witness :
    (analyze_stock sampleSnapshot).1 = update_with_derived sampleSnapshot :=
  (analyze_stock_frame sampleSnapshot).1
